import Mathlib

/-!
Shallow embedding of the weather-forecast widget (a Next.js client component).
The repository holds two variants of the same component:
`src/src/app/page.tsx` and `src/unnamed/part_000`; their logic coincides
except where noted (the degree-symbol literal of formatTemperature, and
getBackgroundClass which only the part_000 variant defines).

Numbers: JS numbers that carry fractional weather values (temperatures,
pressure, wind speed) are embedded as rationals; epoch seconds, timezone
offsets and status codes are integers.
-/

/-- Mirror of the component's WeatherData interface, field main. -/
structure WeatherMain where
  temp : ℚ
  humidity : ℤ
  feels_like : ℚ
  temp_min : ℚ
  temp_max : ℚ
  pressure : ℚ
deriving DecidableEq

/-- Mirror of one element of the weather array of WeatherData. -/
structure WeatherItem where
  main : String
  description : String
  icon : String
deriving DecidableEq

/-- Mirror of the wind field of WeatherData. -/
structure WeatherWind where
  speed : ℚ
deriving DecidableEq

/-- Mirror of the sys field of WeatherData. -/
structure WeatherSys where
  country : String
  sunrise : ℤ
  sunset : ℤ
deriving DecidableEq

/-- Mirror of the WeatherData interface of page.tsx / part_000. -/
structure WeatherData where
  name : String
  main : WeatherMain
  weather : List WeatherItem
  wind : WeatherWind
  sys : WeatherSys
  dt : ℤ
  timezone : ℤ
  cod : ℤ
  message : Option String := none
deriving DecidableEq

/-- Embedding of JS Math.round: round half toward positive infinity,
which on rationals is the floor of the input plus one half. -/
def jsRound (q : ℚ) : ℤ := ⌊q + 1 / 2⌋

/-- formatTemperature of src/unnamed/part_000 (line 117): string of the
rounded value followed by the degree sign and the unit letter. The
stringification of the rounded value matches JS template interpolation
(in particular JS prints negative zero as "0", as does ℤ). -/
def formatTemperature (temp : ℚ) : String := toString (jsRound temp) ++ "°C"

/-- formatTemperature of src/src/app/page.tsx (line 150): same rounding,
but the file's bytes hold the mojibake sequence U+00C2 U+00B0 before the
unit letter, so the rendered suffix is "Â°C". -/
def formatTemperaturePageTsx (temp : ℚ) : String := toString (jsRound temp) ++ "Â°C"

/-- getDayOrNight of both variants: shift observation, sunrise and sunset
by the timezone offset and test membership of the shifted observation in
the closed interval of the shifted sunrise and sunset. -/
def getDayOrNight (dt timezone sunrise sunset : ℤ) : Bool :=
  let localTime := dt + timezone
  let sunriseLocal := sunrise + timezone
  let sunsetLocal := sunset + timezone
  decide (localTime ≥ sunriseLocal) && decide (localTime ≤ sunsetLocal)

/-- Embedding of JS iconCode.slice(0, 2): the first two characters of a
string (the whole string when it is shorter). -/
def sliceTwo (s : String) : String := ⟨s.data.take 2⟩

/-- Icon identifiers: the lucide-react components the two variants return. -/
inductive Icon where
  | sun
  | moon
  | cloudSun
  | cloudMoon
  | cloud
  | cloudRain
  | cloudLightning
  | cloudSnow
  | cloudFog
deriving DecidableEq

/-- Body of the switch of getWeatherIcon over the first two characters of
the icon code: the day flag splits the clear and few/scattered-cloud
cases, and the default case yields the Cloud icon. -/
def iconFromCode (code : String) (isDay : Bool) : Icon :=
  if code = "01" then (if isDay then .sun else .moon)
  else if code = "02" ∨ code = "03" then (if isDay then .cloudSun else .cloudMoon)
  else if code = "04" then .cloud
  else if code = "09" then .cloudRain
  else if code = "10" then .cloudRain
  else if code = "11" then .cloudLightning
  else if code = "13" then .cloudSnow
  else if code = "50" then .cloudFog
  else .cloud

/-- getWeatherIcon of both variants: an empty code yields the Cloud icon;
otherwise the switch on the first two characters of the code. -/
def getWeatherIcon (iconCode : String) (isDay : Bool) : Icon :=
  if iconCode = "" then .cloud
  else iconFromCode (sliceTwo iconCode) isDay

/-- Embedding of JS String.prototype.trim, applied to the query in
fetchWeatherData: drop whitespace from both ends. -/
def jsTrim (s : String) : String :=
  ⟨((s.data.dropWhile Char.isWhitespace).reverse.dropWhile Char.isWhitespace).reverse⟩

/-- Truthiness of the optional isDay argument of getBackgroundClass:
undefined is falsy in JS. -/
def jsTruthyBool : Option Bool → Bool
  | none => false
  | some b => b

/-- Body of the comparison chain of getBackgroundClass over the first two
characters of the weather code, with the final fall-through returning the
default gradient. -/
def bgFromCode (code : String) (isDay : Option Bool) : String :=
  if code = "01" then
    if jsTruthyBool isDay then "from-sky-400 to-blue-500 dark:from-blue-900 dark:to-indigo-900"
    else "from-indigo-900 to-gray-900 dark:from-gray-900 dark:to-black"
  else if code = "02" ∨ code = "03" then
    if jsTruthyBool isDay then "from-blue-300 to-blue-400 dark:from-blue-800 dark:to-blue-900"
    else "from-blue-800 to-indigo-900 dark:from-gray-800 dark:to-gray-900"
  else if code = "04" then "from-gray-300 to-gray-400 dark:from-gray-700 dark:to-gray-800"
  else if code = "09" ∨ code = "10" then "from-gray-400 to-blue-500 dark:from-gray-700 dark:to-blue-900"
  else if code = "11" then "from-gray-600 to-blue-700 dark:from-gray-800 dark:to-blue-900"
  else if code = "13" then "from-blue-100 to-blue-300 dark:from-blue-800 dark:to-blue-900"
  else if code = "50" then "from-gray-200 to-gray-300 dark:from-gray-600 dark:to-gray-700"
  else "from-blue-100 to-blue-300 dark:from-gray-800 dark:to-gray-900"

/-- getBackgroundClass of src/unnamed/part_000 (line 143): a missing or
empty weather code yields the default gradient; otherwise the chain of
comparisons on the first two characters of the code. -/
def getBackgroundClass : Option String → Option Bool → String
  | none, _ => "from-blue-100 to-blue-300 dark:from-gray-800 dark:to-gray-900"
  | some wc, isDay =>
    if wc = "" then "from-blue-100 to-blue-300 dark:from-gray-800 dark:to-gray-900"
    else bgFromCode (sliceTwo wc) isDay

/-- React state of the WeatherApp component, plus the count of fetch
invocations whose response handling has not yet run. The count is not a
React state variable; it makes the async request lifecycle explicit so
that a resolution event can only happen for a request that was started. -/
structure AppState where
  city : String
  weatherData : Option WeatherData
  loading : Bool
  error : Option String
  pending : ℕ
deriving DecidableEq

/-- Initial component state: empty query, no data, not loading, no error. -/
def initState : AppState :=
  { city := "", weatherData := none, loading := false, error := none, pending := 0 }

/-- Outcome of one fetch: an HTTP error status (response.ok false), an HTTP
success whose JSON body parsed to a WeatherData value, or a thrown
exception (network failure or JSON parse failure) whose message may be
absent. -/
inductive FetchOutcome where
  | httpError (status : ℤ)
  | httpOk (data : WeatherData)
  | exn (message : Option String)

/-- Synchronous prefix of fetchWeatherData (page.tsx lines 96-101,
part_000 lines 66-71): a query that is empty after trimming returns
without doing anything; otherwise loading is set, error and previous data
are cleared, and the network request is issued (one more pending
resolution). The boolean of the result records whether a network call was
issued. -/
def fetchStart (cityName : String) (s : AppState) : AppState × Bool :=
  if jsTrim cityName = "" then (s, false)
  else ({ s with loading := true, error := none, weatherData := none,
                 pending := s.pending + 1 }, true)

/-- Embedding of the JS expression err.message or-else fallback: an absent
or empty message is falsy, so the fallback is used. -/
def jsOrElse (message : Option String) (fallback : String) : String :=
  match message with
  | none => fallback
  | some m => if m = "" then fallback else m

/-- Continuation of fetchWeatherData after the request settles (page.tsx
lines 103-127, part_000 lines 73-97): a non-ok response sets the 404 or
the generic message; an ok response whose payload has cod 404 sets the
payload not-found message; otherwise the payload is stored; an exception
sets its message or the fallback. The finally block always clears
loading, and one pending resolution is consumed. -/
def fetchResolve (outcome : FetchOutcome) (s : AppState) : AppState :=
  let s1 :=
    match outcome with
    | .httpError status =>
      if status = 404 then
        { s with error := some "City not found. Please enter a valid city name." }
      else
        { s with error := some "An error occurred while fetching weather data." }
    | .httpOk data =>
      if data.cod = 404 then { s with error := some "City not found" }
      else { s with weatherData := some data }
    | .exn message =>
      { s with error := some (jsOrElse message "An unexpected error occurred.") }
  { s1 with loading := false, pending := s1.pending - 1 }

/-- Click handler of the error panel's button (page.tsx lines 189-198,
part_000 lines 226-235): clear the error, clear the query text, refocus
the input. -/
def dismissError (s : AppState) : AppState :=
  { s with error := none, city := "" }

/-- One UI event of the component: a submit with a non-blank query, the
resolution of a previously started fetch, or a click on the error
panel's button (present only while an error is shown). -/
inductive Step : AppState → AppState → Prop where
  | start (q : String) (s : AppState) (h : jsTrim q ≠ "") :
      Step s (fetchStart q s).1
  | resolve (o : FetchOutcome) (s : AppState) (h : 0 < s.pending) :
      Step s (fetchResolve o s)
  | dismiss (s : AppState) (h : s.error.isSome) :
      Step s (dismissError s)

/-- States the component can reach from its initial state. -/
def Reachable (s : AppState) : Prop :=
  Relation.ReflTransGen Step initState s

/-- Same events as Step, but a submit is only allowed while no fetch is
pending: the single-flight discipline in which requests never overlap. -/
inductive SeqStep : AppState → AppState → Prop where
  | start (q : String) (s : AppState) (h : jsTrim q ≠ "") (hp : s.pending = 0) :
      SeqStep s (fetchStart q s).1
  | resolve (o : FetchOutcome) (s : AppState) (h : 0 < s.pending) :
      SeqStep s (fetchResolve o s)
  | dismiss (s : AppState) (h : s.error.isSome) :
      SeqStep s (dismissError s)

/-- States reachable when requests never overlap. -/
def SeqReachable (s : AppState) : Prop :=
  Relation.ReflTransGen SeqStep initState s

/-- Invariant of the single-flight discipline: at most one request is in
flight, a pending request implies error and data were just cleared, and
error and data are never both present. -/
def SingleFlightInv (s : AppState) : Prop :=
  s.pending ≤ 1 ∧
  (0 < s.pending → s.error = none ∧ s.weatherData = none) ∧
  (s.error = none ∨ s.weatherData = none)

/-- Concrete successful payload used to instantiate theorems: a plausible
provider response with cod 200. -/
def sampleWeather : WeatherData :=
  { name := "Paris"
    main := { temp := 39/2, humidity := 60, feels_like := 19, temp_min := 17,
              temp_max := 21, pressure := 1013, }
    weather := [{ main := "Rain", description := "light rain", icon := "10d" }]
    wind := { speed := 5 }
    sys := { country := "FR", sunrise := 1700000000, sunset := 1700040000 }
    dt := 1700020000
    timezone := 3600
    cod := 200 }

/-- Concrete payload-embedded not-found response: HTTP 200 with cod 404. -/
def notFoundPayload : WeatherData :=
  { name := ""
    main := { temp := 0, humidity := 0, feels_like := 0, temp_min := 0,
              temp_max := 0, pressure := 0, }
    weather := []
    wind := { speed := 0 }
    sys := { country := "", sunrise := 0, sunset := 0 }
    dt := 0
    timezone := 0
    cod := 404 }

/-- Two-digit zero padding of an hour or minute field. -/
def pad2 (n : ℤ) : String := if n < 10 then "0" ++ toString n else toString n

/-- Model of JS Date.prototype.toLocaleTimeString with options hour
2-digit and minute 2-digit: the Date machinery renders the wall clock of
the instant shifted by the host machine's own UTC offset, unless the
timeZone option requests UTC, in which case the instant is rendered as
is. The locale-dependent surface form is fixed to a 24-hour HH:MM
rendering (the claims hold the host locale fixed, only the host timezone
varies). -/
def toLocaleTimeStringHM (hostOffsetMs : ℤ) (timeZoneOpt : Option String)
    (ms : ℤ) : String :=
  let eff := if timeZoneOpt = some "UTC" then ms else ms + hostOffsetMs
  let totalMinutes := Int.fdiv eff 60000
  let minute := Int.emod totalMinutes 60
  let hour := Int.emod (Int.fdiv totalMinutes 60) 24
  pad2 hour ++ ":" ++ pad2 minute

/-- Proleptic-Gregorian civil date of a day count from the epoch
1970-01-01 (the calendar JS Date uses for UTC rendering): year, month in
1..12, day in 1..31. -/
def civilFromDays (days : ℤ) : ℤ × ℤ × ℤ :=
  let z := days + 719468
  let era := Int.fdiv z 146097
  let doe := z - era * 146097
  let yoe := Int.fdiv (doe - Int.fdiv doe 1460 + Int.fdiv doe 36524 - Int.fdiv doe 146096) 365
  let y := yoe + era * 400
  let doy := doe - (365 * yoe + Int.fdiv yoe 4 - Int.fdiv yoe 100)
  let mp := Int.fdiv (5 * doy + 2) 153
  let d := doy - Int.fdiv (153 * mp + 2) 5 + 1
  let m := mp + (if mp < 10 then 3 else -9)
  (y + (if m ≤ 2 then 1 else 0), m, d)

/-- English long weekday name of a weekday index, 0 for Sunday. -/
def weekdayName (w : ℤ) : String :=
  if w = 0 then "Sunday" else if w = 1 then "Monday" else if w = 2 then "Tuesday"
  else if w = 3 then "Wednesday" else if w = 4 then "Thursday"
  else if w = 5 then "Friday" else "Saturday"

/-- English long month name of a month number in 1..12. -/
def monthName (m : ℤ) : String :=
  if m = 1 then "January" else if m = 2 then "February" else if m = 3 then "March"
  else if m = 4 then "April" else if m = 5 then "May" else if m = 6 then "June"
  else if m = 7 then "July" else if m = 8 then "August" else if m = 9 then "September"
  else if m = 10 then "October" else if m = 11 then "November" else "December"

/-- Model of JS Date.prototype.toLocaleDateString with options weekday
long, year numeric, month long, day numeric: as with the time rendering,
the host machine's own UTC offset applies unless the timeZone option
requests UTC. The surface form is the fixed en-US long form. -/
def toLocaleDateStringLong (hostOffsetMs : ℤ) (timeZoneOpt : Option String)
    (ms : ℤ) : String :=
  let eff := if timeZoneOpt = some "UTC" then ms else ms + hostOffsetMs
  let days := Int.fdiv eff 86400000
  let ymd := civilFromDays days
  let wd := Int.emod (days + 4) 7
  weekdayName wd ++ ", " ++ monthName ymd.2.1 ++ " " ++ toString ymd.2.2 ++
    ", " ++ toString ymd.1

/-- getFormattedTime of both variants (page.tsx line 155, part_000 line
121): shift the epoch-second timestamp by the location's offset, convert
to milliseconds, render with the timeZone option set to UTC. The extra
hostOffsetMs argument is the rendering host's own UTC offset, which the
source's fixed UTC option makes irrelevant. -/
def getFormattedTime (timestamp timezone : ℤ) (hostOffsetMs : ℤ) : String :=
  let localTimestamp := (timestamp + timezone) * 1000
  toLocaleTimeStringHM hostOffsetMs (some "UTC") localTimestamp

/-- getFormattedDate of both variants (page.tsx line 165, part_000 line
131): same shift, rendered as a long date with the timeZone option set to
UTC. -/
def getFormattedDate (timestamp timezone : ℤ) (hostOffsetMs : ℤ) : String :=
  let localTimestamp := (timestamp + timezone) * 1000
  toLocaleDateStringLong hostOffsetMs (some "UTC") localTimestamp

theorem string_eq_empty_iff_data (s : String) : s = "" ↔ s.data = [] := by
  constructor
  · intro h; rw [h]
  · intro h; cases s with
    | mk l => cases h; rfl

theorem sliceTwo_eq_empty_iff (s : String) : sliceTwo s = "" ↔ s = "" := by
  rw [string_eq_empty_iff_data, string_eq_empty_iff_data]
  show s.data.take 2 = [] ↔ s.data = []
  simp [List.take_eq_nil_iff]

theorem sliceTwo_twoChar_append (p rest : String) (hp : p.data.length = 2) :
    sliceTwo (p ++ rest) = p := by
  cases p with
  | mk l =>
    cases rest with
    | mk r =>
      show String.mk ((l ++ r).take 2) = String.mk l
      rw [show (2 : Nat) = l.length from hp.symm, List.take_left]

theorem twoChar_append_ne_empty (p rest : String) (hp : p.data.length = 2) :
    p ++ rest ≠ "" := by
  intro h
  rw [string_eq_empty_iff_data] at h
  cases p with
  | mk l =>
    cases rest with
    | mk r =>
      have hlr : l ++ r = [] := h
      simp at hlr
      rw [hlr.1] at hp
      simp at hp

/-- C3: getDayOrNight returns true exactly when the timezone-shifted
observation time lies in the closed interval between the shifted sunrise
and the shifted sunset, so boundary equality counts as daytime and local
times outside the interval do not. -/
theorem getDayOrNight_iff_shifted_interval (dt tz sunrise sunset : ℤ) :
    getDayOrNight dt tz sunrise sunset = true ↔
      sunrise + tz ≤ dt + tz ∧ dt + tz ≤ sunset + tz := by
  simp [getDayOrNight, ge_iff_le]

/-- C10: getDayOrNight does not depend on its timezone-offset argument,
and for every offset it computes exactly the unshifted comparison
sunrise at most dt at most sunset, because the shift cancels on both
sides of each comparison. -/
theorem getDayOrNight_offset_independent (dt tz1 tz2 sunrise sunset : ℤ) :
    getDayOrNight dt tz1 sunrise sunset = getDayOrNight dt tz2 sunrise sunset ∧
      (getDayOrNight dt tz1 sunrise sunset = true ↔ sunrise ≤ dt ∧ dt ≤ sunset) := by
  have h : ∀ tz : ℤ, getDayOrNight dt tz sunrise sunset = true ↔
      sunrise ≤ dt ∧ dt ≤ sunset := by
    intro tz
    simp only [getDayOrNight, ge_iff_le, Bool.and_eq_true, decide_eq_true_eq]
    omega
  exact ⟨by rw [Bool.eq_iff_iff, h tz1, h tz2], h tz1⟩

/-- C2: the page.tsx variant of formatTemperature renders 19.5 degrees as
the mojibake string "20Â°C" rather than the intended "20°C"; the part_000
variant rounds to the nearest integer (half away from zero upward) and
appends the proper degree symbol, rendering 19.5 as "20°C" and -0.4 as
"0°C" with no negative zero. -/
theorem formatTemperature_mojibake_divergence :
    formatTemperaturePageTsx (39 / 2 : ℚ) = "20Â°C" ∧
    formatTemperaturePageTsx (39 / 2 : ℚ) ≠ "20°C" ∧
    formatTemperature (39 / 2 : ℚ) = "20°C" ∧
    formatTemperature (-2 / 5 : ℚ) = "0°C" ∧
    ∀ q : ℚ, |q - (jsRound q : ℚ)| ≤ 1 / 2 := by
  have h20 : jsRound (39 / 2 : ℚ) = 20 := by norm_num [jsRound]
  have h0 : jsRound (-2 / 5 : ℚ) = 0 := by norm_num [jsRound]
  refine ⟨?_, ?_, ?_, ?_, ?_⟩
  · show toString (jsRound (39 / 2 : ℚ)) ++ "Â°C" = "20Â°C"
    rw [h20]; rfl
  · show toString (jsRound (39 / 2 : ℚ)) ++ "Â°C" ≠ "20°C"
    rw [h20]; decide
  · show toString (jsRound (39 / 2 : ℚ)) ++ "°C" = "20°C"
    rw [h20]; rfl
  · show toString (jsRound (-2 / 5 : ℚ)) ++ "°C" = "0°C"
    rw [h0]; rfl
  · intro q
    rw [abs_le, jsRound]
    have h1 := Int.floor_le (q + 1 / 2)
    have h2 := Int.lt_floor_add_one (q + 1 / 2)
    constructor <;> linarith

theorem getWeatherIcon_append_twoChar (p rest : String) (d : Bool)
    (hp : p.data.length = 2) :
    getWeatherIcon (p ++ rest) d = iconFromCode p d := by
  unfold getWeatherIcon
  rw [if_neg (twoChar_append_ne_empty p rest hp), sliceTwo_twoChar_append p rest hp]

theorem getBackgroundClass_append_twoChar (p rest : String) (d : Option Bool)
    (hp : p.data.length = 2) :
    getBackgroundClass (some (p ++ rest)) d = bgFromCode p d := by
  simp only [getBackgroundClass]
  rw [if_neg (twoChar_append_ne_empty p rest hp), sliceTwo_twoChar_append p rest hp]

/-- C7: the icon choice depends on the condition code only through its
first two characters; the prefixes 09 and 10 both yield the rain icon;
the clear prefix 01 and the partly-cloudy prefixes 02 and 03 split into
day and night variants by the day flag; and every prefix outside the
fixed table yields the default Cloud icon rather than failing. -/
theorem getWeatherIcon_prefix_table :
    (∀ c1 c2 : String, ∀ d : Bool, sliceTwo c1 = sliceTwo c2 →
        getWeatherIcon c1 d = getWeatherIcon c2 d) ∧
    (∀ rest : String, ∀ d : Bool,
        getWeatherIcon ("09" ++ rest) d = Icon.cloudRain ∧
        getWeatherIcon ("10" ++ rest) d = Icon.cloudRain) ∧
    (∀ rest : String,
        getWeatherIcon ("01" ++ rest) true = Icon.sun ∧
        getWeatherIcon ("01" ++ rest) false = Icon.moon ∧
        getWeatherIcon ("02" ++ rest) true = Icon.cloudSun ∧
        getWeatherIcon ("02" ++ rest) false = Icon.cloudMoon ∧
        getWeatherIcon ("03" ++ rest) true = Icon.cloudSun ∧
        getWeatherIcon ("03" ++ rest) false = Icon.cloudMoon) ∧
    (∀ c : String, ∀ d : Bool,
        sliceTwo c ∉ (["01", "02", "03", "04", "09", "10", "11", "13", "50"] : List String) →
        getWeatherIcon c d = Icon.cloud) := by
  refine ⟨?_, ?_, ?_, ?_⟩
  · intro c1 c2 d h
    by_cases hc : c2 = ""
    · have hc1 : c1 = "" := by
        rw [← sliceTwo_eq_empty_iff, h, sliceTwo_eq_empty_iff]; exact hc
      rw [hc1, hc]
    · have hc1 : c1 ≠ "" := by
        intro hh; apply hc
        rw [← sliceTwo_eq_empty_iff, ← h, sliceTwo_eq_empty_iff]; exact hh
      unfold getWeatherIcon
      rw [if_neg hc1, if_neg hc, h]
  · intro rest d
    rw [getWeatherIcon_append_twoChar "09" rest d rfl,
        getWeatherIcon_append_twoChar "10" rest d rfl]
    exact ⟨rfl, rfl⟩
  · intro rest
    rw [getWeatherIcon_append_twoChar "01" rest true rfl,
        getWeatherIcon_append_twoChar "01" rest false rfl,
        getWeatherIcon_append_twoChar "02" rest true rfl,
        getWeatherIcon_append_twoChar "02" rest false rfl,
        getWeatherIcon_append_twoChar "03" rest true rfl,
        getWeatherIcon_append_twoChar "03" rest false rfl]
    exact ⟨rfl, rfl, rfl, rfl, rfl, rfl⟩
  · intro c d hmem
    simp only [List.mem_cons, List.mem_singleton, not_or] at hmem
    obtain ⟨h01, h02, h03, h04, h09, h10, h11, h13, h50⟩ := hmem
    by_cases hc : c = ""
    · rw [hc]; rfl
    · unfold getWeatherIcon
      rw [if_neg hc]
      simp [iconFromCode, h01, h02, h03, h04, h09, h10, h11, h13, h50]

/-- C8: the background gradient depends on the condition code only
through its first two characters; the prefixes 09 and 10 yield the same
rain gradient; a missing condition code yields the neutral default
gradient; and every prefix outside the fixed table also yields the
default gradient rather than failing. -/
theorem getBackgroundClass_prefix_table :
    (∀ c1 c2 : String, ∀ d : Option Bool, sliceTwo c1 = sliceTwo c2 →
        getBackgroundClass (some c1) d = getBackgroundClass (some c2) d) ∧
    (∀ rest1 rest2 : String, ∀ d : Option Bool,
        getBackgroundClass (some ("09" ++ rest1)) d =
          "from-gray-400 to-blue-500 dark:from-gray-700 dark:to-blue-900" ∧
        getBackgroundClass (some ("10" ++ rest2)) d =
          "from-gray-400 to-blue-500 dark:from-gray-700 dark:to-blue-900") ∧
    (∀ d : Option Bool,
        getBackgroundClass none d =
          "from-blue-100 to-blue-300 dark:from-gray-800 dark:to-gray-900") ∧
    (∀ c : String, ∀ d : Option Bool,
        sliceTwo c ∉ (["01", "02", "03", "04", "09", "10", "11", "13", "50"] : List String) →
        getBackgroundClass (some c) d =
          "from-blue-100 to-blue-300 dark:from-gray-800 dark:to-gray-900") := by
  refine ⟨?_, ?_, ?_, ?_⟩
  · intro c1 c2 d h
    by_cases hc : c2 = ""
    · have hc1 : c1 = "" := by
        rw [← sliceTwo_eq_empty_iff, h, sliceTwo_eq_empty_iff]; exact hc
      rw [hc1, hc]
    · have hc1 : c1 ≠ "" := by
        intro hh; apply hc
        rw [← sliceTwo_eq_empty_iff, ← h, sliceTwo_eq_empty_iff]; exact hh
      simp only [getBackgroundClass]
      rw [if_neg hc1, if_neg hc, h]
  · intro rest1 rest2 d
    rw [getBackgroundClass_append_twoChar "09" rest1 d rfl,
        getBackgroundClass_append_twoChar "10" rest2 d rfl]
    exact ⟨rfl, rfl⟩
  · intro d; rfl
  · intro c d hmem
    simp only [List.mem_cons, List.mem_singleton, not_or] at hmem
    obtain ⟨h01, h02, h03, h04, h09, h10, h11, h13, h50⟩ := hmem
    by_cases hc : c = ""
    · rw [hc]; rfl
    · simp only [getBackgroundClass]
      rw [if_neg hc]
      simp [bgFromCode, h01, h02, h03, h04, h09, h10, h11, h13, h50]

/-- C4: submitting a query that is non-empty after trimming, from any
state whatever, synchronously sets the loading flag, clears any prior
error message and any prior snapshot, and issues the network call; all of
this happens before any resolution event. -/
theorem fetchStart_nonblank_enters_loading (q : String) (s : AppState)
    (h : jsTrim q ≠ "") :
    (fetchStart q s).1.loading = true ∧ (fetchStart q s).1.error = none ∧
    (fetchStart q s).1.weatherData = none ∧ (fetchStart q s).2 = true := by
  simp [fetchStart, h]

/-- Stale state used to instantiate theorems: an old snapshot and an old
error both present, nothing loading. -/
def staleState : AppState :=
  { city := "x"
    weatherData := some sampleWeather
    loading := false
    error := some "old error"
    pending := 0 }

/-- Error-only state used to instantiate theorems. -/
def errState : AppState :=
  { city := "c"
    weatherData := none
    loading := false
    error := some "e"
    pending := 0 }

/-- Witness for C4: submitting "Paris" from a state holding both an old
error and an old snapshot clears both and enters loading. -/
theorem fetchStart_nonblank_enters_loading_witness :
    jsTrim "Paris" ≠ "" ∧
    ((fetchStart "Paris" staleState).1.loading = true ∧
     (fetchStart "Paris" staleState).1.error = none ∧
     (fetchStart "Paris" staleState).1.weatherData = none ∧
     (fetchStart "Paris" staleState).2 = true) :=
  ⟨by decide, fetchStart_nonblank_enters_loading "Paris" staleState (by decide)⟩

/-- C6: submitting a query that is empty after trimming issues no network
call and leaves the whole state unchanged. -/
theorem fetchStart_blank_noop (q : String) (s : AppState)
    (h : jsTrim q = "") :
    fetchStart q s = (s, false) := by
  simp [fetchStart, h]

/-- Witness for C6: a whitespace-only query is a no-op on a state holding
an error message. -/
theorem fetchStart_blank_noop_witness :
    jsTrim "  \t " = "" ∧ fetchStart "  \t " errState = (errState, false) :=
  ⟨by decide, fetchStart_blank_noop _ errState (by decide)⟩

/-- Counterexample for C1: resolving with HTTP 404 and resolving with
HTTP success plus payload cod 404, from the same post-submit state, set
different user-visible messages, so the two states are not the same. -/
theorem fetchResolve_notFound_messages_differ :
    (fetchResolve (.httpError 404) (fetchStart "Paris" initState).1).error =
      some "City not found. Please enter a valid city name." ∧
    (fetchResolve (.httpOk notFoundPayload) (fetchStart "Paris" initState).1).error =
      some "City not found" ∧
    (fetchResolve (.httpError 404) (fetchStart "Paris" initState).1).error ≠
      (fetchResolve (.httpOk notFoundPayload) (fetchStart "Paris" initState).1).error := by
  refine ⟨rfl, rfl, ?_⟩
  intro h
  have h2 : some "City not found. Please enter a valid city name." =
      some "City not found" := h
  simp at h2

/-- C1 as amended: both not-found paths produce an error state with no
snapshot stored and loading cleared, but with distinct messages: the
HTTP-level path sets "City not found. Please enter a valid city name."
while the payload path sets "City not found". -/
theorem fetchResolve_notFound_amended (s : AppState) (w : WeatherData)
    (hw : w.cod = 404) (hs : s.weatherData = none) :
    (fetchResolve (.httpError 404) s).error =
      some "City not found. Please enter a valid city name." ∧
    (fetchResolve (.httpOk w) s).error = some "City not found" ∧
    (fetchResolve (.httpError 404) s).weatherData = none ∧
    (fetchResolve (.httpOk w) s).weatherData = none ∧
    (fetchResolve (.httpError 404) s).loading = false ∧
    (fetchResolve (.httpOk w) s).loading = false := by
  simp [fetchResolve, hw, hs]

/-- Witness for the amended C1: resolving the concrete cod-404 payload
after submitting "Paris" from the initial state. -/
theorem fetchResolve_notFound_amended_witness :
    notFoundPayload.cod = 404 ∧
    (fetchStart "Paris" initState).1.weatherData = none ∧
    (fetchResolve (.httpOk notFoundPayload) (fetchStart "Paris" initState).1).error =
      some "City not found" ∧
    (fetchResolve (.httpError 404) (fetchStart "Paris" initState).1).error =
      some "City not found. Please enter a valid city name." :=
  ⟨rfl, rfl,
    (fetchResolve_notFound_amended _ notFoundPayload rfl rfl).2.1,
    (fetchResolve_notFound_amended _ notFoundPayload rfl rfl).1⟩

/-- Counterexample for C5: with two overlapping submissions, the first
resolving as a generic HTTP error and the second as a success, the
component reaches a state holding a non-null error message and a non-null
snapshot at the same time, because the success path stores the payload
without clearing the error the earlier resolution set. -/
theorem reachable_error_and_data_simultaneously :
    Reachable (fetchResolve (.httpOk sampleWeather)
      (fetchResolve (.httpError 500) (fetchStart "b" (fetchStart "a" initState).1).1)) ∧
    (fetchResolve (.httpOk sampleWeather)
      (fetchResolve (.httpError 500) (fetchStart "b" (fetchStart "a" initState).1).1)).error =
        some "An error occurred while fetching weather data." ∧
    (fetchResolve (.httpOk sampleWeather)
      (fetchResolve (.httpError 500) (fetchStart "b" (fetchStart "a" initState).1).1)).weatherData =
        some sampleWeather := by
  refine ⟨?_, rfl, rfl⟩
  have t1 : Step initState (fetchStart "a" initState).1 :=
    .start "a" initState (by decide)
  have t2 : Step (fetchStart "a" initState).1 (fetchStart "b" (fetchStart "a" initState).1).1 :=
    .start "b" _ (by decide)
  have t3 : Step (fetchStart "b" (fetchStart "a" initState).1).1
      (fetchResolve (.httpError 500) (fetchStart "b" (fetchStart "a" initState).1).1) :=
    .resolve (.httpError 500) _ (by decide)
  have t4 : Step (fetchResolve (.httpError 500) (fetchStart "b" (fetchStart "a" initState).1).1)
      (fetchResolve (.httpOk sampleWeather)
        (fetchResolve (.httpError 500) (fetchStart "b" (fetchStart "a" initState).1).1)) :=
    .resolve (.httpOk sampleWeather) _ (by decide)
  exact ((((Relation.ReflTransGen.refl).tail t1).tail t2).tail t3).tail t4

theorem seqStep_preserves_inv (a b : AppState) (hstep : SeqStep a b)
    (hinv : SingleFlightInv a) : SingleFlightInv b := by
  obtain ⟨hp1, hp2, hp3⟩ := hinv
  cases hstep with
  | start q s h hp =>
    simp [fetchStart, h, SingleFlightInv, hp]
  | resolve o s h =>
    have he : a.error = none := (hp2 h).1
    have hd : a.weatherData = none := (hp2 h).2
    cases o with
    | httpError status =>
      by_cases h4 : status = 404 <;>
        simp [fetchResolve, SingleFlightInv, h4, he, hd] <;> omega
    | httpOk data =>
      by_cases h4 : data.cod = 404 <;>
        simp [fetchResolve, SingleFlightInv, h4, he, hd] <;> omega
    | exn message =>
      simp [fetchResolve, SingleFlightInv, he, hd]
      omega
  | dismiss s h =>
    have hp0 : a.pending = 0 := by
      by_contra hne
      have := (hp2 (Nat.pos_of_ne_zero hne)).1
      simp [this] at h
    simp [dismissError, SingleFlightInv, hp0]

theorem seqReachable_inv (s : AppState) (h : SeqReachable s) :
    SingleFlightInv s := by
  unfold SeqReachable at h
  induction h with
  | refl => simp [SingleFlightInv, initState]
  | tail hab hbc ih => exact seqStep_preserves_inv _ _ hbc ih

/-- C5 as amended: as long as submissions never overlap (a new search is
only submitted once no fetch is pending), every reachable state has the
error message and the snapshot mutually exclusive; with overlapping
requests the exclusivity can fail, since a success resolution does not
clear an error a previous resolution set. -/
theorem seqReachable_error_xor_data (s : AppState) (h : SeqReachable s) :
    s.error = none ∨ s.weatherData = none :=
  (seqReachable_inv s h).2.2

/-- Witness for the amended C5: the initial state is single-flight
reachable and satisfies the exclusivity. -/
theorem seqReachable_error_xor_data_witness :
    SeqReachable initState ∧
    (initState.error = none ∨ initState.weatherData = none) :=
  ⟨Relation.ReflTransGen.refl,
    seqReachable_error_xor_data initState Relation.ReflTransGen.refl⟩

/-- C9: because the source passes the fixed UTC timeZone option to the
formatter, the rendered date and time strings do not depend on the
rendering host's own UTC offset, and they depend on the timestamp and
the location offset only through their sum, so two hosts differing only
in their local timezone render identical strings. -/
theorem formatted_strings_host_independent :
    (∀ ts tz host1 host2 : ℤ,
        getFormattedTime ts tz host1 = getFormattedTime ts tz host2 ∧
        getFormattedDate ts tz host1 = getFormattedDate ts tz host2) ∧
    (∀ ts1 tz1 ts2 tz2 host : ℤ, ts1 + tz1 = ts2 + tz2 →
        getFormattedTime ts1 tz1 host = getFormattedTime ts2 tz2 host ∧
        getFormattedDate ts1 tz1 host = getFormattedDate ts2 tz2 host) := by
  constructor
  · intro ts tz host1 host2
    constructor
    · simp [getFormattedTime, toLocaleTimeStringHM]
    · simp [getFormattedDate, toLocaleDateStringLong]
  · intro ts1 tz1 ts2 tz2 host h
    constructor
    · simp [getFormattedTime, toLocaleTimeStringHM, h]
    · simp [getFormattedDate, toLocaleDateStringLong, h]

/-- Witness for C9: a fixed shifted instant rendered on two hosts with
different offsets, and under two decompositions of the same local time. -/
theorem formatted_strings_host_independent_witness :
    (getFormattedTime 1700020000 3600 0 = getFormattedTime 1700020000 3600 7200000 ∧
     getFormattedDate 1700020000 3600 0 = getFormattedDate 1700020000 3600 7200000) ∧
    ((1700020000 : ℤ) + 3600 = 1700016400 + 7200 ∧
     getFormattedTime 1700020000 3600 0 = getFormattedTime 1700016400 7200 0) :=
  ⟨formatted_strings_host_independent.1 1700020000 3600 0 7200000,
   by decide,
   (formatted_strings_host_independent.2 1700020000 3600 1700016400 7200 0 (by decide)).1⟩

/-- Witness for C7: the unrecognized code 99d degrades to the Cloud icon
and the rain code 10d yields the rain icon. -/
theorem getWeatherIcon_prefix_table_witness :
    sliceTwo "99d" ∉ (["01", "02", "03", "04", "09", "10", "11", "13", "50"] : List String) ∧
    getWeatherIcon "99d" true = Icon.cloud ∧
    getWeatherIcon ("10" ++ "d") false = Icon.cloudRain :=
  ⟨by decide,
   getWeatherIcon_prefix_table.2.2.2 "99d" true (by decide),
   (getWeatherIcon_prefix_table.2.1 "d" false).2⟩

/-- Witness for C8: a missing code and the unrecognized code 99d both
yield the default gradient, and the shower-rain code 09d yields the rain
gradient. -/
theorem getBackgroundClass_prefix_table_witness :
    sliceTwo "99d" ∉ (["01", "02", "03", "04", "09", "10", "11", "13", "50"] : List String) ∧
    getBackgroundClass (some "99d") (some true) =
      "from-blue-100 to-blue-300 dark:from-gray-800 dark:to-gray-900" ∧
    getBackgroundClass (some ("09" ++ "d")) none =
      "from-gray-400 to-blue-500 dark:from-gray-700 dark:to-blue-900" :=
  ⟨by decide,
   getBackgroundClass_prefix_table.2.2.2 "99d" (some true) (by decide),
   (getBackgroundClass_prefix_table.2.1 "d" "x" none).1⟩
